import Mathlib

/-!
Verification of the toga platform backends (cocoa `Container`, android
`OptionContainer`) against their natural-language specification.

The Python sources are shallowly embedded: objects become structures,
mutation becomes explicit state passing, and operations that can raise a
Python exception return the intermediate state together with an optional
`PyError` (Python leaves partial mutations in place when an exception
propagates, so the state reached before the raise is kept).
-/

set_option autoImplicit false

/-- A toolkit widget; we only need object identity and a native handle,
so a widget is modelled by an identifier. -/
structure Widget where
  id : Nat
deriving DecidableEq, Repr

/-- A toga icon. `OPTION_CONTAINER_DEFAULT_TAB_ICON` is the toolkit-wide
default sentinel used by `set_option_icon` when no icon is given. -/
inductive Icon where
  | user (id : Nat)
  | OPTION_CONTAINER_DEFAULT_TAB_ICON
deriving DecidableEq, Repr

/-- Result of `icon._impl.as_drawable(widget, size)`: a rasterization of the
icon at the given reference size. -/
structure Drawable where
  icon : Icon
  size : Nat
deriving DecidableEq, Repr

/-- Embeds `icon._impl.as_drawable(self, size)` from the android backend, modelled
as a pure rasterization record. -/
def as_drawable (icon : Icon) (size : Nat) : Drawable :=
  { icon := icon, size := size }

/-- Python exceptions that the embedded operations can raise. -/
inductive PyError where
  /-- Embeds `AttributeError`, e.g. a method call on `None`. -/
  | attributeError
  /-- Embeds `IndexError` from an out-of-range list subscript. -/
  | indexError
  /-- A native call on a handle that no native object backs
  (unreachable from states built by the operations). -/
  | invalidHandle
deriving DecidableEq, Repr

instance instDecEqExcept {ε α : Type} [DecidableEq ε] [DecidableEq α] :
    DecidableEq (Except ε α) := fun x y =>
  match x, y with
  | .error e, .error f =>
      if h : e = f then .isTrue (by rw [h])
      else .isFalse (by intro hc; injection hc; contradiction)
  | .error _, .ok _ => .isFalse (by intro hc; exact Except.noConfusion hc)
  | .ok _, .error _ => .isFalse (by intro hc; exact Except.noConfusion hc)
  | .ok a, .ok b =>
      if h : a = b then .isTrue (by rw [h])
      else .isFalse (by intro hc; injection hc; contradiction)

/-- Python's `list.insert(i, a)`: the index is clamped to the list length,
so insertion never fails for a non-negative index. -/
def pyInsert {α : Type} (l : List α) (i : Nat) (a : α) : List α :=
  l.take i ++ a :: l.drop i

/-! ## The cocoa `Container` (src/toga/platform/cocoa/widgets/container.py) -/

/-- The symbolic layout attributes of the abstract constraint model
(`toga.constraint.Attribute`). -/
inductive LayoutAttr where
  | LEFT | RIGHT | TOP | BOTTOM | LEADING | TRAILING
  | WIDTH | HEIGHT | CENTER_X | CENTER_Y
deriving DecidableEq, Repr

/-- The native `NSLayoutAttribute` constants. -/
inductive NSLayoutAttribute where
  | notAnAttribute
  | left | right | top | bottom | leading | trailing
  | width | height | centerX | centerY
deriving DecidableEq, Repr

/-- The native `NSLayoutRelation` constants. -/
inductive NSLayoutRelation where
  | lessThanOrEqual | equal | greaterThanOrEqual
deriving DecidableEq, Repr

/-- The relation kinds of the abstract constraint model
(`Constraint.LTE / EQUAL / GTE`). -/
inductive ConstraintRelation where
  | LTE | EQUAL | GTE
deriving DecidableEq, Repr

/-- Embeds `Container._IDENTIFIER`: the lookup table from the symbolic attribute
(or `None`) to the native layout-attribute constant. -/
def IDENTIFIER : Option LayoutAttr → NSLayoutAttribute
  | none => .notAnAttribute
  | some .LEFT => .left
  | some .RIGHT => .right
  | some .TOP => .top
  | some .BOTTOM => .bottom
  | some .LEADING => .leading
  | some .TRAILING => .trailing
  | some .WIDTH => .width
  | some .HEIGHT => .height
  | some .CENTER_X => .centerX
  | some .CENTER_Y => .centerY

/-- Embeds `Container._RELATION`: the lookup table from the symbolic relation to
the native relation constant. -/
def RELATION : ConstraintRelation → NSLayoutRelation
  | .LTE => .lessThanOrEqual
  | .EQUAL => .equal
  | .GTE => .greaterThanOrEqual

/-- An attribute term of the abstract constraint model: a symbolic attribute
of a widget together with a multiplier and a constant.  Multipliers and
constants are Python numbers; they are modelled as rationals (the claims
only involve exact values). -/
structure ConstraintAttr where
  widget : Widget
  identifier : Option LayoutAttr
  multiplier : ℚ
  constant : ℚ
deriving DecidableEq, Repr

/-- An abstract `Constraint`: `attr (relation) related_attr`, where the
related attribute is absent for unary (intrinsic-size) constraints.
`cid` models Python object identity, which is what dict membership in
`Container.constraints` uses. -/
structure Constraint where
  cid : Nat
  attr : ConstraintAttr
  relation : ConstraintRelation
  related_attr : Option ConstraintAttr
deriving DecidableEq, Repr

/-- The argument record of
`NSLayoutConstraint.constraintWithItem_attribute_relatedBy_toItem_attribute_multiplier_constant_`:
the native constraint object that the cocoa bridge creates. -/
structure NSLayoutConstraint where
  item : Widget
  attr : NSLayoutAttribute
  relatedBy : NSLayoutRelation
  toItem : Option Widget
  toAttr : NSLayoutAttribute
  multiplier : ℚ
  constant : ℚ
deriving DecidableEq, Repr

/-- The mutable state of a cocoa `Container`: its children, the
`constraint -> native handle` dict (keyed by constraint identity, in
insertion order, as a Python dict is), and the native constraints attached
to the backing view by `addConstraint_`. -/
structure ContainerState where
  children : List Widget := []
  constraints : List (Nat × NSLayoutConstraint) := []
  nativeConstraints : List NSLayoutConstraint := []
deriving DecidableEq, Repr

namespace Container

/-- Embeds `Container.add(widget)`: append to `children` and attach the subview
(the native attachment and app propagation carry no further state here). -/
def add (s : ContainerState) (w : Widget) : ContainerState :=
  { s with children := s.children ++ [w] }

/-- Embeds `constraint in self.constraints`: dict membership, by object identity. -/
def registered (s : ContainerState) (c : Constraint) : Bool :=
  s.constraints.any (fun p => p.1 == c.cid)

/-- The argument computation of the native
`constraintWithItem_..._multiplier_constant_` call inside
`Container.constrain`.  For a binary constraint the multiplier and constant
are normalized by folding the first attribute's own multiplier and constant
into the right-hand side; for a unary constraint they pass through
unchanged.  (Python would raise `ZeroDivisionError` for a zero
`attr.multiplier` of integer type; rational division is total, and the
claims compare against the very same quotient expressions.) -/
def nativeConstraintFor (c : Constraint) : NSLayoutConstraint :=
  let widget := c.attr.widget
  let identifier := c.attr.identifier
  let (related_widget, related_identifier, multiplier, constant) :=
    match c.related_attr with
    | some r =>
        (some r.widget, r.identifier,
         r.multiplier / c.attr.multiplier,
         (r.constant - c.attr.constant) / c.attr.multiplier)
    | none =>
        (none, none, c.attr.multiplier, c.attr.constant)
  { item := widget
    attr := IDENTIFIER identifier
    relatedBy := RELATION c.relation
    toItem := related_widget
    toAttr := IDENTIFIER related_identifier
    multiplier := multiplier
    constant := constant }

/-- Embeds `Container.constrain(constraint)` from
src/toga/platform/cocoa/widgets/container.py: if the constraint is already
registered, return immediately; otherwise build the native constraint (see
`Container.nativeConstraintFor`), attach it to the view, and record it in
the constraint dict. -/
def constrain (s : ContainerState) (c : Constraint) : ContainerState :=
  if registered s c then s
  else
    let impl := nativeConstraintFor c
    { s with
      nativeConstraints := s.nativeConstraints ++ [impl]
      constraints := s.constraints ++ [(c.cid, impl)] }

end Container

/-! ## The android `OptionContainer`
(src/android/src/toga_android/widgets/optioncontainer.py) -/

/-- The warnings the android `OptionContainer` emits through
`warnings.warn`, as events (the messages are f-strings over `max_items`). -/
inductive OCWarning where
  /-- "OptionContainer is limited to N items on Android. Additional item
  will be ignored." -/
  | additionalItemIgnored (max_items : Nat)
  /-- "OptionContainer is limited to N items on Android. Excess items will
  be ignored." -/
  | excessItemsIgnored (max_items : Nat)
  /-- "Tab is outside selectable range" -/
  | tabOutsideSelectableRange
deriving DecidableEq, Repr

/-- The state of one native `MenuItem` object returned by `Menu.add`.
`ref` models Java object identity; the menu item's id (`getItemId`) is
identified with it, so `removeItem(item.getItemId())` removes exactly that
item, which is how the backend uses the native interface. -/
structure MenuItemState where
  ref : Nat
  order : Nat
  title : String
  enabled : Bool := true
  checked : Bool := false
  icon : Option Drawable := none
deriving DecidableEq, Repr

/-- The native menu of the `BottomNavigationView`: the store of all
`MenuItem` objects ever created (Java objects stay alive while referenced,
even after removal from the menu) and the refs currently in the menu, in
insertion order. -/
structure NativeMenu where
  nextRef : Nat := 0
  objects : List MenuItemState := []
  members : List Nat := []
deriving DecidableEq, Repr

namespace NativeMenu

/-- Embeds `getMenu().add(0, 0, order, title)`: create a fresh menu item (enabled,
unchecked, no icon) and append it to the menu; returns the new item. -/
def add (m : NativeMenu) (order : Nat) (title : String) :
    Nat × NativeMenu :=
  (m.nextRef,
    { nextRef := m.nextRef + 1
      objects := m.objects ++ [{ ref := m.nextRef, order := order, title := title }]
      members := m.members ++ [m.nextRef] })

/-- Embeds `getMenu().removeItem(id)`: drop the item with that id from the menu
(the object itself stays alive). -/
def removeItem (m : NativeMenu) (ref : Nat) : NativeMenu :=
  { m with members := m.members.filter (fun r => r ≠ ref) }

/-- Look up the object behind a menu-item reference. -/
def findItem (m : NativeMenu) (ref : Nat) : Option MenuItemState :=
  m.objects.find? (fun o => o.ref == ref)

/-- Mutate the object behind a menu-item reference. -/
def setItem (m : NativeMenu) (ref : Nat) (f : MenuItemState → MenuItemState) :
    NativeMenu :=
  { m with objects := m.objects.map (fun o => if o.ref == ref then f o else o) }

/-- Embeds `menu_item.setEnabled(b)`. -/
def setEnabled (m : NativeMenu) (ref : Nat) (b : Bool) : NativeMenu :=
  setItem m ref (fun o => { o with enabled := b })

/-- Embeds `menu_item.setTitle(t)`. -/
def setTitle (m : NativeMenu) (ref : Nat) (t : String) : NativeMenu :=
  setItem m ref (fun o => { o with title := t })

/-- Embeds `menu_item.setChecked(b)`. -/
def setChecked (m : NativeMenu) (ref : Nat) (b : Bool) : NativeMenu :=
  setItem m ref (fun o => { o with checked := b })

/-- Embeds `menu_item.setIcon(drawable)`. -/
def setIcon (m : NativeMenu) (ref : Nat) (d : Option Drawable) : NativeMenu :=
  setItem m ref (fun o => { o with icon := d })

/-- Embeds `menu_item.isEnabled()`; errors on a dangling reference, which states
built by the operations never produce. -/
def isEnabled (m : NativeMenu) (ref : Nat) : Except PyError Bool :=
  match findItem m ref with
  | some o => .ok o.enabled
  | none => .error .invalidHandle

/-- Embeds `menu_item.getTitle()`. -/
def getTitle (m : NativeMenu) (ref : Nat) : Except PyError String :=
  match findItem m ref with
  | some o => .ok o.title
  | none => .error .invalidHandle

/-- Embeds `menu_item.isChecked()`. -/
def isChecked (m : NativeMenu) (ref : Nat) : Except PyError Bool :=
  match findItem m ref with
  | some o => .ok o.checked
  | none => .error .invalidHandle

end NativeMenu

/-- The shadow `TogaOption` dataclass: option details plus the native
`menu_item` reference, `None` when the option has no native representation. -/
structure TogaOption where
  text : String
  icon : Option Icon
  widget : Widget
  enabled : Bool := true
  menu_item : Option Nat := none
deriving DecidableEq, Repr

/-- The state of an android `OptionContainer`: the capacity read from
`getMaxItemCount()` at creation, the native navigation menu, the ordered
shadow option list, the active content (`set_content`), the log of
`interface.refresh()` calls, and the warnings emitted so far. -/
structure OCState where
  max_items : Nat
  menu : NativeMenu := {}
  options : List TogaOption := []
  content : Option Widget := none
  refreshed : List Widget := []
  warnings : List OCWarning := []
deriving DecidableEq, Repr

namespace OptionContainer

/-- Embeds `create()`: native widget instantiation reduced to its state content —
cache `max_items` from the native view and start with an empty option list.
(`getMaxItemCount()` returns 5 on Android; the value is kept symbolic.) -/
def create (maxItemCount : Nat) : OCState :=
  { max_items := maxItemCount }

/-- Embeds `warnings.warn(...)`. -/
def warn (s : OCState) (w : OCWarning) : OCState :=
  { s with warnings := s.warnings ++ [w] }

/-- Embeds `select_option(index)`: swap the content to the chosen option's widget
and refresh its interface. -/
def select_option (s : OCState) (index : Nat) : OCState × Option PyError :=
  match s.options.get? index with
  | none => (s, some .indexError)
  | some option =>
      ({ s with
          content := some option.widget
          refreshed := s.refreshed ++ [option.widget] },
        none)

/-- Embeds `set_option_icon(index, icon)`: always store the icon in the shadow
option; when a native menu item exists, substitute the toolkit default for
a missing icon, rasterize at reference size 32 and push it natively. -/
def set_option_icon (s : OCState) (index : Nat) (icon : Option Icon) :
    OCState × Option PyError :=
  match s.options.get? index with
  | none => (s, some .indexError)
  | some option =>
      let s1 : OCState :=
        { s with options := s.options.set index { option with icon := icon } }
      match option.menu_item with
      | none => (s1, none)
      | some ref =>
          let icon1 := icon.getD Icon.OPTION_CONTAINER_DEFAULT_TAB_ICON
          let drawable := as_drawable icon1 32
          ({ s1 with menu := s1.menu.setIcon ref (some drawable) }, none)

/-- Embeds `_populate_menu_item(index, option)`.  Python passes the option object;
here `pos` is its position in `self.options` (callers pass
`self.options[pos]`, or the freshly inserted option sitting at `pos`).
Creates the native menu item with order `index`, stores the reference in
the shadow option, then resolves the icon via `set_option_icon(index, ...)`
— which re-indexes `self.options[index]` and raises `IndexError` when
`index` is out of range. -/
def populate_menu_item (s : OCState) (index : Nat) (pos : Nat) :
    OCState × Option PyError :=
  match s.options.get? pos with
  | none => (s, some .indexError)
  | some option =>
      let (ref, menu') := s.menu.add index option.text
      let s1 : OCState :=
        { s with
            menu := menu'
            options := s.options.set pos { option with menu_item := some ref } }
      set_option_icon s1 index option.icon

end OptionContainer

namespace OptionContainer

/-- The trailing `if len(self.options) == 1: self.select_option(0)` of
`add_option`: the very first option becomes the active content. -/
def select_if_only_option (s : OCState) : OCState × Option PyError :=
  if s.options.length == 1 then select_option s 0 else (s, none)

/-- Embeds `add_option(index, text, widget, icon)` from
src/android/src/toga_android/widgets/optioncontainer.py.  Store the new
option at `index` (Python's `list.insert` clamps the index); if
`index >= max_items` warn and leave the option menu-less, otherwise evict
`self.options[max_items - 1]` when the list now exceeds `max_items`
(raising `AttributeError` if that slot's `menu_item` is `None`) and create
the native menu entry; finally select the option when it is the only one. -/
def add_option (s : OCState) (index : Nat) (text : String) (widget : Widget)
    (icon : Option Icon) : OCState × Option PyError :=
  let option : TogaOption := { text := text, icon := icon, widget := widget }
  let pos := min index s.options.length
  let s1 : OCState := { s with options := pyInsert s.options index option }
  let step : OCState × Option PyError :=
    if s1.max_items ≤ index then
      (warn s1 (.additionalItemIgnored s1.max_items), none)
    else if s1.max_items < s1.options.length then
      let s2 := warn s1 (.excessItemsIgnored s1.max_items)
      match s2.options.get? (s2.max_items - 1) with
      | none => (s2, some .indexError)
      | some last_option =>
          match last_option.menu_item with
          | none => (s2, some .attributeError)
          | some ref =>
              let s3 : OCState := { s2 with menu := s2.menu.removeItem ref }
              let s4 : OCState :=
                { s3 with
                    options :=
                      s3.options.set (s3.max_items - 1)
                        { last_option with menu_item := none } }
              populate_menu_item s4 index pos
    else
      populate_menu_item s1 index pos
  match step with
  | (s', some e) => (s', some e)
  | (s', none) => select_if_only_option s'

/-- Embeds `remove_option(index)`: remove the native menu entry when the option
has one, delete the list entry, and when at least `max_items` options
remain re-populate the slot `max_items - 1`.  (The model indexes with
natural numbers; for `max_items = 0` Python's `max_items - 1 = -1` would
address the last list element instead, a case the claims — Android's
capacity is 5 — never exercise, and the theorems below assume
`0 < max_items`.) -/
def remove_option (s : OCState) (index : Nat) : OCState × Option PyError :=
  match s.options.get? index with
  | none => (s, some .indexError)
  | some option =>
      let s1 : OCState :=
        match option.menu_item with
        | some ref => { s with menu := s.menu.removeItem ref }
        | none => s
      let s2 : OCState := { s1 with options := s1.options.eraseIdx index }
      if s2.max_items ≤ s2.options.length then
        populate_menu_item s2 (s2.max_items - 1) (s2.max_items - 1)
      else
        (s2, none)

/-- Embeds `set_option_enabled(index, enabled)`: mutate the shadow option; push to
the native item when one exists. -/
def set_option_enabled (s : OCState) (index : Nat) (enabled : Bool) :
    OCState × Option PyError :=
  match s.options.get? index with
  | none => (s, some .indexError)
  | some option =>
      let s1 : OCState :=
        { s with options := s.options.set index { option with enabled := enabled } }
      match option.menu_item with
      | none => (s1, none)
      | some ref => ({ s1 with menu := s1.menu.setEnabled ref enabled }, none)

/-- Embeds `is_option_enabled(index)`: read the native item when one exists, else
the shadow value. -/
def is_option_enabled (s : OCState) (index : Nat) : Except PyError Bool :=
  match s.options.get? index with
  | none => .error .indexError
  | some option =>
      match option.menu_item with
      | some ref => s.menu.isEnabled ref
      | none => .ok option.enabled

/-- Embeds `set_option_text(index, text)`: mutate the shadow option; push to the
native item when one exists. -/
def set_option_text (s : OCState) (index : Nat) (text : String) :
    OCState × Option PyError :=
  match s.options.get? index with
  | none => (s, some .indexError)
  | some option =>
      let s1 : OCState :=
        { s with options := s.options.set index { option with text := text } }
      match option.menu_item with
      | none => (s1, none)
      | some ref => ({ s1 with menu := s1.menu.setTitle ref text }, none)

/-- Embeds `get_option_text(index)`: read the native title when a menu item
exists, else the shadow text. -/
def get_option_text (s : OCState) (index : Nat) : Except PyError String :=
  match s.options.get? index with
  | none => .error .indexError
  | some option =>
      match option.menu_item with
      | some ref => s.menu.getTitle ref
      | none => .ok option.text

/-- Embeds `get_option_icon(index)`: returns `self.options[index].icon` — always
the shadow icon, with no native read. -/
def get_option_icon (s : OCState) (index : Nat) : Except PyError (Option Icon) :=
  match s.options.get? index with
  | none => .error .indexError
  | some option => .ok option.icon

/-- The scan of `get_current_tab_index`: walk the options in order asking
`option.menu_item.isChecked()` — an `AttributeError` when `menu_item` is
`None`. -/
def current_tab_scan (m : NativeMenu) : Nat → List TogaOption →
    Except PyError (Option Nat)
  | _, [] => .ok none
  | i, option :: rest =>
      match option.menu_item with
      | none => .error .attributeError
      | some ref =>
          match m.isChecked ref with
          | .error e => .error e
          | .ok true => .ok (some i)
          | .ok false => current_tab_scan m (i + 1) rest

/-- Embeds `get_current_tab_index()`: index of the first option whose native item
is checked, through `current_tab_scan`. -/
def get_current_tab_index (s : OCState) : Except PyError (Option Nat) :=
  current_tab_scan s.menu 0 s.options

/-- Embeds `set_current_tab_index(i)`: for `i < max_items` poke the native checked
state of that option's menu item (an `AttributeError` when it has none);
otherwise warn that the tab is outside the selectable range. -/
def set_current_tab_index (s : OCState) (i : Nat) : OCState × Option PyError :=
  if i < s.max_items then
    match s.options.get? i with
    | none => (s, some .indexError)
    | some option =>
        match option.menu_item with
        | none => (s, some .attributeError)
        | some ref => ({ s with menu := s.menu.setChecked ref true }, none)
  else
    (warn s .tabOutsideSelectableRange, none)

end OptionContainer

/-! ### Concrete container runs used by the witnesses and counterexamples -/

/-- A container with `max_items = 2` holding two visible tabs A, B
(added at indices 0 and 1). -/
def twoTabsState : OCState :=
  (OptionContainer.add_option
    (OptionContainer.add_option (OptionContainer.create 2) 0 ("A") ⟨10⟩ none).1
    1 ("B") ⟨11⟩ none).1

/-- State `twoTabsState` after inserting X at index 0, overflowing the capacity. -/
def evictionState : OCState :=
  (OptionContainer.add_option twoTabsState 0 ("X") ⟨12⟩ none).1

/-- A container with `max_items = 1` holding visible tab A and a menu-less
overflow tab B (added at index 1 ≥ max_items). -/
def overflowTabsState : OCState :=
  (OptionContainer.add_option
    (OptionContainer.add_option (OptionContainer.create 1) 0 ("A") ⟨10⟩ none).1
    1 ("B") ⟨11⟩ none).1

/-- The spec's eviction example: `max_items = 3`, tabs A, B, C, D added at
indices 0..3; D is beyond capacity and menu-less. -/
def fourTabsState : OCState :=
  (OptionContainer.add_option
    (OptionContainer.add_option
      (OptionContainer.add_option
        (OptionContainer.add_option (OptionContainer.create 3) 0 ("A") ⟨10⟩ none).1
        1 ("B") ⟨11⟩ none).1
      2 ("C") ⟨12⟩ none).1
    3 ("D") ⟨13⟩ none).1

/-- A container with `max_items = 5` holding a single visible tab A with no
explicit icon. -/
def firstTabState : OCState :=
  (OptionContainer.add_option (OptionContainer.create 5) 0 ("A") ⟨10⟩ none).1

/-- The shadow/native split predicate: an option at a list position below
`max_items` has a populated `menu_item`, an option at a position at or
beyond `max_items` has `menu_item = None`. -/
def menuItemMatchesSlot (max_items : Nat) : Nat → List TogaOption → Bool
  | _, [] => true
  | i, option :: rest =>
      (option.menu_item.isSome == decide (i < max_items)) &&
        menuItemMatchesSlot max_items (i + 1) rest

/-- The split invariant of the spec, over a whole container state. -/
def splitInvariant (s : OCState) : Bool :=
  menuItemMatchesSlot s.max_items 0 s.options

/-- A full container at the real Android capacity: `max_items = 5` with
five visible tabs A..E. -/
def fiveTabsState : OCState :=
  (OptionContainer.add_option
    (OptionContainer.add_option
      (OptionContainer.add_option
        (OptionContainer.add_option
          (OptionContainer.add_option (OptionContainer.create 5) 0 ("A") ⟨10⟩ none).1
          1 ("B") ⟨11⟩ none).1
        2 ("C") ⟨12⟩ none).1
      3 ("D") ⟨13⟩ none).1
    4 ("E") ⟨14⟩ none).1

/-- The related attribute of the spec's concrete normalization example:
multiplier 1, constant 0. -/
def relatedAttrW : ConstraintAttr := ⟨⟨2⟩, some .WIDTH, 1, 0⟩

/-- The spec's concrete normalization example: an attr with multiplier 2 and
constant 4, related to `relatedAttrW`. -/
def binaryConstraintW : Constraint :=
  ⟨0, ⟨⟨1⟩, some .WIDTH, 2, 4⟩, .EQUAL, some relatedAttrW⟩

/-- A concrete fresh unary constraint, for the C4 witness. -/
def unaryConstraintW : Constraint := ⟨7, ⟨⟨1⟩, some .WIDTH, 1, 20⟩, .GTE, none⟩

/-! ## Theorems -/

theorem pyInsert_length {α : Type} (l : List α) (i : Nat) (a : α) :
    (pyInsert l i a).length = l.length + 1 := by
  simp [pyInsert]
  omega

theorem pyInsert_get_min {α : Type} (l : List α) (i : Nat) (a : α) :
    (pyInsert l i a).get? (min i l.length) = some a := by
  have htake : (l.take i).length = min i l.length := List.length_take i l
  rw [pyInsert, List.get?_append_right (by omega)]
  simp [htake]

theorem constrain_not_registered (s : ContainerState) (c : Constraint)
    (h : Container.registered s c = false) :
    Container.constrain s c =
      { s with
        nativeConstraints :=
          s.nativeConstraints ++ [Container.nativeConstraintFor c]
        constraints :=
          s.constraints ++ [(c.cid, Container.nativeConstraintFor c)] } := by
  simp [Container.constrain, h]

theorem constrain_registered (s : ContainerState) (c : Constraint)
    (h : Container.registered s c = true) : Container.constrain s c = s := by
  simp [Container.constrain, h]

theorem nativeConstraintFor_binary (c : Constraint) (r : ConstraintAttr)
    (h : c.related_attr = some r) :
    Container.nativeConstraintFor c =
      { item := c.attr.widget
        attr := IDENTIFIER c.attr.identifier
        relatedBy := RELATION c.relation
        toItem := some r.widget
        toAttr := IDENTIFIER r.identifier
        multiplier := r.multiplier / c.attr.multiplier
        constant := (r.constant - c.attr.constant) / c.attr.multiplier } := by
  simp [Container.nativeConstraintFor, h]

/-- C1: for a fresh binary constraint, the native constraint created by
`constrain` carries the normalized multiplier
`related.multiplier / attr.multiplier` and constant
`(related.constant - attr.constant) / attr.multiplier`. -/
theorem constrain_binary_normalizes (s : ContainerState) (c : Constraint)
    (r : ConstraintAttr)
    (h1 : Container.registered s c = false) (h2 : c.related_attr = some r) :
    (Container.constrain s c).nativeConstraints =
      s.nativeConstraints ++
        [{ item := c.attr.widget
           attr := IDENTIFIER c.attr.identifier
           relatedBy := RELATION c.relation
           toItem := some r.widget
           toAttr := IDENTIFIER r.identifier
           multiplier := r.multiplier / c.attr.multiplier
           constant := (r.constant - c.attr.constant) / c.attr.multiplier }] := by
  rw [constrain_not_registered s c h1, nativeConstraintFor_binary c r h2]

/-- Witness for C1 at the spec's concrete example: attr with multiplier 2 and
constant 4, related attribute with multiplier 1 and constant 0; the native
call receives multiplier 0.5 and constant -2. -/
theorem constrain_binary_normalizes_witness :
    (Container.registered {} binaryConstraintW = false ∧
        binaryConstraintW.related_attr = some relatedAttrW) ∧
      (Container.constrain {} binaryConstraintW).nativeConstraints =
        [{ item := ⟨1⟩
           attr := NSLayoutAttribute.width
           relatedBy := NSLayoutRelation.equal
           toItem := some ⟨2⟩
           toAttr := NSLayoutAttribute.width
           multiplier := (1 : ℚ) / 2
           constant := (-2 : ℚ) }] :=
  ⟨⟨by decide, rfl⟩,
    (constrain_binary_normalizes {} binaryConstraintW relatedAttrW
        (by decide) rfl).trans
      (by norm_num [binaryConstraintW, relatedAttrW, IDENTIFIER, RELATION])⟩

/-- C4: registering a fresh constraint adds exactly one native constraint
and one dict entry, and a second `constrain` call with the same constraint
object returns immediately, leaving the whole container state (native
constraints and the constraint-to-handle map included) unchanged. -/
theorem constrain_idempotent (s : ContainerState) (c : Constraint)
    (h : Container.registered s c = false) :
    Container.constrain (Container.constrain s c) c = Container.constrain s c ∧
      (Container.constrain s c).nativeConstraints.length =
        s.nativeConstraints.length + 1 ∧
      (Container.constrain s c).constraints.length =
        s.constraints.length + 1 := by
  have h1 := constrain_not_registered s c h
  have hreg : Container.registered (Container.constrain s c) c = true := by
    rw [h1]
    simp [Container.registered]
  refine ⟨constrain_registered _ _ hreg, ?_, ?_⟩ <;> rw [h1] <;> simp

/-- Witness for C4: a concrete fresh unary constraint on an empty container;
the second call changes nothing and exactly one native constraint exists. -/
theorem constrain_idempotent_witness :
    Container.registered {} unaryConstraintW = false ∧
      (Container.constrain (Container.constrain {} unaryConstraintW)
            unaryConstraintW =
          Container.constrain {} unaryConstraintW ∧
        (Container.constrain {} unaryConstraintW).nativeConstraints.length =
          0 + 1 ∧
        (Container.constrain {} unaryConstraintW).constraints.length =
          0 + 1) :=
  ⟨by decide, constrain_idempotent {} unaryConstraintW (by decide)⟩

/-! ### Helper lemmas about the operations -/

theorem map_set_invariant {α β : Type} (f : α → β) (l : List α) (i : Nat)
    (a a' : α) (h : l.get? i = some a) (hf : f a' = f a) :
    (l.set i a').map f = l.map f := by
  induction l generalizing i with
  | nil => simp at h
  | cons x xs ih =>
    cases i with
    | zero =>
        simp only [List.get?] at h
        injection h with h
        subst h
        simp [List.set, hf]
    | succ n =>
        simp only [List.get?] at h
        simp [List.set, ih n h]

theorem select_if_only_option_fields (s : OCState) (h : s.options ≠ []) :
    (OptionContainer.select_if_only_option s).2 = none ∧
      (OptionContainer.select_if_only_option s).1.options = s.options ∧
      (OptionContainer.select_if_only_option s).1.menu = s.menu ∧
      (OptionContainer.select_if_only_option s).1.warnings = s.warnings ∧
      (OptionContainer.select_if_only_option s).1.max_items = s.max_items := by
  unfold OptionContainer.select_if_only_option
  rcases hlen : s.options.length == 1 with _ | _
  · simp [hlen]
  · rcases hg : s.options.get? 0 with _ | o
    · rw [List.get?_eq_none] at hg
      rw [List.eq_nil_of_length_eq_zero (Nat.le_zero.mp hg)] at h
      exact absurd rfl h
    · rw [List.get?_eq_getElem?] at hg
      simp [hlen, OptionContainer.select_option, hg]

theorem select_if_only_option_single (s : OCState) (o : TogaOption)
    (h : s.options = [o]) :
    OptionContainer.select_if_only_option s =
      ({ s with
          content := some o.widget
          refreshed := s.refreshed ++ [o.widget] }, none) := by
  simp [OptionContainer.select_if_only_option, OptionContainer.select_option, h]

theorem add_option_capacity_branch (s : OCState) (index : Nat) (text : String)
    (widget : Widget) (icon : Option Icon) (h : s.max_items ≤ index) :
    OptionContainer.add_option s index text widget icon =
      OptionContainer.select_if_only_option
        (OptionContainer.warn
          { s with
              options :=
                pyInsert s.options index
                  { text := text, icon := icon, widget := widget } }
          (.additionalItemIgnored s.max_items)) := by
  unfold OptionContainer.add_option
  simp [h, OptionContainer.warn]

theorem populate_menu_item_spec (s : OCState) (pos : Nat) (option : TogaOption)
    (h : s.options.get? pos = some option) :
    (OptionContainer.populate_menu_item s pos pos).2 = none ∧
      (OptionContainer.populate_menu_item s pos pos).1.options =
        s.options.set pos { option with menu_item := some s.menu.nextRef } ∧
      (OptionContainer.populate_menu_item s pos pos).1.menu.members =
        s.menu.members ++ [s.menu.nextRef] ∧
      (OptionContainer.populate_menu_item s pos pos).1.max_items = s.max_items ∧
      (OptionContainer.populate_menu_item s pos pos).1.content = s.content ∧
      (OptionContainer.populate_menu_item s pos pos).1.refreshed = s.refreshed ∧
      (OptionContainer.populate_menu_item s pos pos).1.warnings = s.warnings := by
  have hlt : pos < s.options.length := by
    by_contra hge
    rw [List.get?_eq_none.mpr (Nat.le_of_not_lt hge)] at h
    exact Option.noConfusion h
  have hset :
      (s.options.set pos { option with menu_item := some s.menu.nextRef }).get? pos =
        some { option with menu_item := some s.menu.nextRef } :=
    List.get?_set_eq_of_lt _ hlt
  unfold OptionContainer.populate_menu_item
  rw [h]
  unfold OptionContainer.set_option_icon
  simp only [NativeMenu.add, hset]
  simp [NativeMenu.setIcon, NativeMenu.setItem]

/-! ### Claim theorems for the android `OptionContainer` -/

/-- C2 fails on the code: after add(0,A), add(1,B), add(0,X) on a container
with `max_items = 2` (a plain sequence of valid `add_option` calls), the
shadow/native split invariant is violated — the option at position 1
(below `max_items`) has `menu_item = None` while the option at position 2
(at `max_items`) still holds a native menu item. -/
theorem split_invariant_violated :
    splitInvariant evictionState = false ∧
      evictionState.max_items = 2 ∧
      evictionState.options.map (fun o => (o.text, o.menu_item)) =
        [(("X"), some 2), (("A"), none), (("B"), some 1)] := by
  decide

/-- C3 fails on the code: with `max_items = 2` and visible tabs A, B,
inserting X at index 0 evicts A — the option at list position
`max_items - 1` *after* the insertion, i.e. pre-insertion position
`max_items - 2` — while B, the option that occupied the last visible slot
`max_items - 1 = 1` before the insertion, keeps its native item; and
inserting at index `max_items - 1` itself raises `AttributeError`, because
the slot read after insertion then holds the brand-new menu-less option. -/
theorem add_option_evicts_wrong_option :
    twoTabsState.options.map (fun o => (o.text, o.menu_item)) =
        [(("A"), some 0), (("B"), some 1)] ∧
      (OptionContainer.add_option twoTabsState 0 ("X") ⟨12⟩ none).2 = none ∧
      evictionState.options.map (fun o => (o.text, o.menu_item)) =
        [(("X"), some 2), (("A"), none), (("B"), some 1)] ∧
      evictionState.menu.members = [1, 2] ∧
      (OptionContainer.add_option twoTabsState 1 ("Y") ⟨13⟩ none).2 =
        some PyError.attributeError := by
  decide

/-- C5 fails on the code: in a reachable state with one visible, unchecked
tab A and one menu-less overflow tab B, the scan of
`get_current_tab_index` reaches B and calls `isChecked()` on its `None`
`menu_item`, raising `AttributeError` instead of returning `None`. -/
theorem get_current_tab_index_raises_on_menuless :
    overflowTabsState.options.map (fun o => (o.text, o.menu_item)) =
        [(("A"), some 0), (("B"), none)] ∧
      NativeMenu.isChecked overflowTabsState.menu 0 = .ok false ∧
      OptionContainer.get_current_tab_index overflowTabsState =
        .error PyError.attributeError := by
  decide

/-- C8's "previously menu-less" assertion fails on the code: with
`max_items = 1`, tabs [A (native item 0), B (menu-less)], removing B (an
option beyond the visible range) triggers the re-population of slot
`max_items - 1 = 0` even though A already has a native item, so the menu
ends up with two native entries (refs 0 and 1) for the single remaining
option A. -/
theorem remove_option_repopulates_populated_slot :
    (overflowTabsState.options.get? 0).map (fun o => o.menu_item) =
        some (some 0) ∧
      (OptionContainer.remove_option overflowTabsState 1).2 = none ∧
      (OptionContainer.remove_option overflowTabsState 1).1.menu.members =
        [0, 1] ∧
      (OptionContainer.remove_option overflowTabsState 1).1.options.map
          (fun o => (o.text, o.menu_item)) = [(("A"), some 1)] := by
  decide

/-- C6's "getter returns the native value" fails for icons: after adding
tab A with no icon, the native menu item carries the rasterized default
tab icon while `get_option_icon` still returns the shadow value `None` —
the icon getter never consults the native item. -/
theorem get_option_icon_ignores_native :
    (firstTabState.options.get? 0).map (fun o => (o.icon, o.menu_item)) =
        some (none, some 0) ∧
      (NativeMenu.findItem firstTabState.menu 0).map (fun o => o.icon) =
        some (some { icon := Icon.OPTION_CONTAINER_DEFAULT_TAB_ICON, size := 32 }) ∧
      OptionContainer.get_option_icon firstTabState 0 = .ok none := by
  decide

/-- C9's "regardless of the index argument" fails on the code: adding the
very first option at index 2 on an empty container with `max_items = 5`
raises `IndexError` inside the icon-resolution step of
`_populate_menu_item` (which re-indexes `options[2]` in a list of length
1), and no selection happens — the content stays `None`. -/
theorem add_first_option_midrange_raises :
    (OptionContainer.create 5).options = [] ∧
      (OptionContainer.add_option (OptionContainer.create 5) 2 ("A") ⟨10⟩ none).2 =
        some PyError.indexError ∧
      (OptionContainer.add_option (OptionContainer.create 5) 2 ("A") ⟨10⟩ none).1.content =
        none := by
  decide

/-- C10's "without error" fails on the code: adding the very first option
at index 3 (above the list length 0 but below `max_items = 5`) raises
`IndexError` in the icon-resolution step, so not every non-negative index
is safe for the first insertion. -/
theorem add_option_beyond_length_raises :
    (OptionContainer.create 5).options.length < 3 ∧
      (OptionContainer.add_option (OptionContainer.create 5) 3 ("A") ⟨10⟩ none).2 =
        some PyError.indexError := by
  decide

/-- C7: adding an option at an index at or beyond `max_items`, from any
state, succeeds, occupies a list slot (the list grows by one, the new
option sits at the clamped position `min index len`), leaves the option
menu-less, creates no native menu entry (the native menu is untouched),
and emits the capacity-exceeded warning. -/
theorem add_option_beyond_capacity (s : OCState) (index : Nat) (text : String)
    (widget : Widget) (icon : Option Icon) (h : s.max_items ≤ index) :
    (OptionContainer.add_option s index text widget icon).2 = none ∧
      (OptionContainer.add_option s index text widget icon).1.options.length =
        s.options.length + 1 ∧
      (OptionContainer.add_option s index text widget icon).1.options.get?
          (min index s.options.length) =
        some { text := text, icon := icon, widget := widget, enabled := true,
               menu_item := none } ∧
      (OptionContainer.add_option s index text widget icon).1.menu = s.menu ∧
      (OptionContainer.add_option s index text widget icon).1.warnings =
        s.warnings ++ [.additionalItemIgnored s.max_items] := by
  rw [add_option_capacity_branch s index text widget icon h]
  have hne : (OptionContainer.warn
      { s with
          options :=
            pyInsert s.options index
              { text := text, icon := icon, widget := widget } }
      (.additionalItemIgnored s.max_items)).options ≠ [] := by
    show pyInsert s.options index _ ≠ []
    intro hnil
    have hlen := pyInsert_length s.options index
      ({ text := text, icon := icon, widget := widget } : TogaOption)
    rw [hnil] at hlen
    simp at hlen
  obtain ⟨h1, h2, h3, h4, -⟩ := select_if_only_option_fields _ hne
  refine ⟨h1, ?_, ?_, ?_, ?_⟩
  · rw [h2]
    show (pyInsert s.options index _).length = _
    exact pyInsert_length s.options index _
  · rw [h2]
    exact pyInsert_get_min s.options index _
  · rw [h3]
    simp [OptionContainer.warn]
  · rw [h4]
    simp [OptionContainer.warn]

/-- Witness for C7 at the spec's concrete example: `max_items = 5`, adding
a 6th option at index 5 leaves it menu-less while `len(options) = 6`. -/
theorem add_option_beyond_capacity_witness :
    fiveTabsState.max_items ≤ 5 ∧
      (OptionContainer.add_option fiveTabsState 5 ("F") ⟨15⟩ none).2 = none ∧
      (OptionContainer.add_option fiveTabsState 5 ("F") ⟨15⟩ none).1.options.length = 6 ∧
      (OptionContainer.add_option fiveTabsState 5 ("F") ⟨15⟩ none).1.options.get? 5 =
        some { text := ("F"), icon := none, widget := ⟨15⟩, enabled := true,
               menu_item := none } ∧
      (OptionContainer.add_option fiveTabsState 5 ("F") ⟨15⟩ none).1.menu =
        fiveTabsState.menu := by
  have h := add_option_beyond_capacity fiveTabsState 5 ("F") ⟨15⟩ none (by decide)
  exact ⟨by decide, h.1, h.2.1.trans (by decide), (by decide : (5 : Nat) = min 5 fiveTabsState.options.length) ▸ h.2.2.1, h.2.2.2.1⟩

/-- C9 (amended): adding the very first option makes it the active content
whenever the call completes, which is the case for `index = 0` and for
`index ≥ max_items`: the call succeeds, the content becomes the new
option's widget, its interface is refreshed, and the list has one entry.
(For `0 < index < max_items` the call instead raises `IndexError` in the
icon-resolution step and no selection happens.) -/
theorem add_first_option_selects (s : OCState) (index : Nat) (text : String)
    (widget : Widget) (icon : Option Icon) (hempty : s.options = [])
    (hidx : index = 0 ∨ s.max_items ≤ index) :
    (OptionContainer.add_option s index text widget icon).2 = none ∧
      (OptionContainer.add_option s index text widget icon).1.content =
        some widget ∧
      (OptionContainer.add_option s index text widget icon).1.refreshed =
        s.refreshed ++ [widget] ∧
      (OptionContainer.add_option s index text widget icon).1.options.length =
        1 := by
  rcases hidx with rfl | hcap
  · by_cases hm : s.max_items = 0
    · simp [OptionContainer.add_option, hempty, pyInsert, hm,
        OptionContainer.warn, OptionContainer.select_if_only_option,
        OptionContainer.select_option]
    · simp [OptionContainer.add_option, hempty, pyInsert, hm,
        OptionContainer.populate_menu_item, OptionContainer.set_option_icon,
        NativeMenu.add, NativeMenu.setIcon, NativeMenu.setItem,
        OptionContainer.select_if_only_option, OptionContainer.select_option,
        OptionContainer.warn, Nat.pos_of_ne_zero hm]
  · simp [OptionContainer.add_option, hempty, pyInsert, hcap,
      OptionContainer.warn, OptionContainer.select_if_only_option,
      OptionContainer.select_option]

/-- Witness for C9: the very first option added at index 7 on an empty
container with `max_items = 5` lands at position 0, is selected and
becomes the active content. -/
theorem add_first_option_selects_witness :
    ((OptionContainer.create 5).options = [] ∧
        ((7 : Nat) = 0 ∨ (OptionContainer.create 5).max_items ≤ 7)) ∧
      ((OptionContainer.add_option (OptionContainer.create 5) 7 ("A") ⟨10⟩ none).2 =
          none ∧
        (OptionContainer.add_option (OptionContainer.create 5) 7 ("A") ⟨10⟩ none).1.content =
          some ⟨10⟩ ∧
        (OptionContainer.add_option (OptionContainer.create 5) 7 ("A") ⟨10⟩ none).1.refreshed =
          (OptionContainer.create 5).refreshed ++ [⟨10⟩] ∧
        (OptionContainer.add_option (OptionContainer.create 5) 7 ("A") ⟨10⟩ none).1.options.length =
          1) :=
  ⟨⟨rfl, by decide⟩,
    add_first_option_selects (OptionContainer.create 5) 7 ("A") ⟨10⟩ none rfl
      (by decide)⟩

/-- C10 (amended): when `add_option` is called with an index greater than
the current list length, the insertion itself never fails — the new option
lands at the end of the list, position `min index len = len` — and the
menu branch is decided by the raw index: for `index ≥ max_items` the call
completes without error, while for `index < max_items` the icon-resolution
step re-indexes `options[index]` and raises `IndexError`. -/
theorem add_option_beyond_length_clamps (s : OCState) (index : Nat)
    (text : String) (widget : Widget) (icon : Option Icon)
    (h : s.options.length < index) :
    (OptionContainer.add_option s index text widget icon).1.options.length =
        s.options.length + 1 ∧
      ((OptionContainer.add_option s index text widget icon).1.options.get?
            s.options.length).map (fun o => (o.text, o.icon, o.widget)) =
        some (text, icon, widget) ∧
      ((OptionContainer.add_option s index text widget icon).2 = none ↔
        s.max_items ≤ index) := by
  by_cases hcap : s.max_items ≤ index
  · have hmain := add_option_beyond_capacity s index text widget icon hcap
    have hmin : min index s.options.length = s.options.length :=
      Nat.min_eq_right (Nat.le_of_lt h)
    rw [hmin] at hmain
    refine ⟨hmain.2.1, ?_, by simp [hmain.1, hcap]⟩
    rw [hmain.2.2.1]
    rfl
  · have hmin : min index s.options.length = s.options.length :=
      Nat.min_eq_right (Nat.le_of_lt h)
    have hg : (pyInsert s.options index
        ({ text := text, icon := icon, widget := widget } : TogaOption)).get?
          s.options.length =
        some { text := text, icon := icon, widget := widget } := by
      have hx := pyInsert_get_min s.options index
        ({ text := text, icon := icon, widget := widget } : TogaOption)
      rwa [hmin] at hx
    have hnoev : ¬ s.max_items <
        (pyInsert s.options index
          ({ text := text, icon := icon, widget := widget } : TogaOption)).length := by
      rw [pyInsert_length]
      omega
    have hgind : ∀ o' : TogaOption,
        ((pyInsert s.options index
            ({ text := text, icon := icon, widget := widget } : TogaOption)).set
          s.options.length o').get? index = none := by
      intro o'
      apply List.get?_eq_none.mpr
      rw [List.length_set, pyInsert_length]
      omega
    unfold OptionContainer.add_option OptionContainer.populate_menu_item
      OptionContainer.set_option_icon
    simp only [hmin, hcap, if_false, hnoev, hg, NativeMenu.add, hgind]
    refine ⟨by simp [pyInsert_length], ?_, by simp [hcap]⟩
    rw [List.get?_set_eq_of_lt]
    · rfl
    · rw [pyInsert_length]
      omega

/-- Witness for C10: the first option added at index 6 on an empty
container with `max_items = 5` lands at position 0 and the call completes
because 6 ≥ max_items. -/
theorem add_option_beyond_length_clamps_witness :
    (OptionContainer.create 5).options.length < 6 ∧
      ((OptionContainer.add_option (OptionContainer.create 5) 6 ("A") ⟨10⟩ none).1.options.length =
          (OptionContainer.create 5).options.length + 1 ∧
        ((OptionContainer.add_option (OptionContainer.create 5) 6 ("A") ⟨10⟩ none).1.options.get?
              (OptionContainer.create 5).options.length).map
            (fun o => (o.text, o.icon, o.widget)) = some (("A"), none, ⟨10⟩) ∧
        ((OptionContainer.add_option (OptionContainer.create 5) 6 ("A") ⟨10⟩ none).2 =
            none ↔ (OptionContainer.create 5).max_items ≤ 6)) :=
  ⟨by decide,
    add_option_beyond_length_clamps (OptionContainer.create 5) 6 ("A") ⟨10⟩ none
      (by decide)⟩

/-- C6 (amended): for a valid index, all three setters update the shadow
option and push to the native menu item exactly when one exists; the
enabled and text getters read the native item when one exists and fall
back to the shadow value otherwise; the icon getter always returns the
shadow icon (it never consults the native item — the divergence recorded
in `get_option_icon_ignores_native`); and on a menu-less option the
setters leave the native menu untouched while the getters return the
(updated) shadow values. -/
theorem option_accessors_shadow_native (s : OCState) (index : Nat)
    (option : TogaOption) (b : Bool) (t : String) (ic : Option Icon)
    (h : s.options.get? index = some option) :
    ((OptionContainer.set_option_enabled s index b).2 = none ∧
      (OptionContainer.set_option_enabled s index b).1.options =
        s.options.set index { option with enabled := b } ∧
      (OptionContainer.set_option_enabled s index b).1.menu =
        (match option.menu_item with
          | some ref => s.menu.setEnabled ref b
          | none => s.menu)) ∧
    ((OptionContainer.set_option_text s index t).2 = none ∧
      (OptionContainer.set_option_text s index t).1.options =
        s.options.set index { option with text := t } ∧
      (OptionContainer.set_option_text s index t).1.menu =
        (match option.menu_item with
          | some ref => s.menu.setTitle ref t
          | none => s.menu)) ∧
    ((OptionContainer.set_option_icon s index ic).2 = none ∧
      (OptionContainer.set_option_icon s index ic).1.options =
        s.options.set index { option with icon := ic } ∧
      (OptionContainer.set_option_icon s index ic).1.menu =
        (match option.menu_item with
          | some ref =>
              s.menu.setIcon ref
                (some (as_drawable
                  (ic.getD Icon.OPTION_CONTAINER_DEFAULT_TAB_ICON) 32))
          | none => s.menu)) ∧
    (OptionContainer.is_option_enabled s index =
      (match option.menu_item with
        | some ref => s.menu.isEnabled ref
        | none => .ok option.enabled)) ∧
    (OptionContainer.get_option_text s index =
      (match option.menu_item with
        | some ref => s.menu.getTitle ref
        | none => .ok option.text)) ∧
    (OptionContainer.get_option_icon s index = .ok option.icon) ∧
    (option.menu_item = none →
      OptionContainer.is_option_enabled
          (OptionContainer.set_option_enabled s index b).1 index = .ok b ∧
        OptionContainer.get_option_text
          (OptionContainer.set_option_text s index t).1 index = .ok t ∧
        OptionContainer.get_option_icon
          (OptionContainer.set_option_icon s index ic).1 index = .ok ic) := by
  have hlt : index < s.options.length := by
    by_contra hge
    rw [List.get?_eq_none.mpr (Nat.le_of_not_lt hge)] at h
    exact Option.noConfusion h
  have h' : s.options[index]? = some option := by
    rw [← List.get?_eq_getElem?]
    exact h
  refine ⟨?_, ?_, ?_, ?_, ?_, ?_, ?_⟩
  · cases hmi : option.menu_item <;>
      simp [OptionContainer.set_option_enabled, h', hmi]
  · cases hmi : option.menu_item <;>
      simp [OptionContainer.set_option_text, h', hmi]
  · cases hmi : option.menu_item <;>
      simp [OptionContainer.set_option_icon, h', hmi]
  · cases hmi : option.menu_item <;>
      simp [OptionContainer.is_option_enabled, h', hmi]
  · cases hmi : option.menu_item <;>
      simp [OptionContainer.get_option_text, h', hmi]
  · simp [OptionContainer.get_option_icon, h']
  · intro hmi
    have hs : (s.options.set index { option with enabled := b })[index]? =
        some { option with enabled := b } :=
      List.getElem?_set_eq_of_lt _ (by simpa using hlt)
    have ht : (s.options.set index { option with text := t })[index]? =
        some { option with text := t } :=
      List.getElem?_set_eq_of_lt _ (by simpa using hlt)
    have hi : (s.options.set index { option with icon := ic })[index]? =
        some { option with icon := ic } :=
      List.getElem?_set_eq_of_lt _ (by simpa using hlt)
    simp only [hmi] at hs ht hi
    refine ⟨?_, ?_, ?_⟩
    · simp [OptionContainer.set_option_enabled, h', hmi,
        OptionContainer.is_option_enabled, hs]
    · simp [OptionContainer.set_option_text, h', hmi,
        OptionContainer.get_option_text, ht]
    · simp [OptionContainer.set_option_icon, h', hmi,
        OptionContainer.get_option_icon, hi]

/-- Witness for C6 on the menu-less option B of `overflowTabsState`:
setting its text mutates shadow state only (the native menu is untouched),
the text getter then returns the updated shadow text, and the icon getter
returns the shadow icon. -/
theorem option_accessors_shadow_native_witness :
    overflowTabsState.options.get? 1 =
        some { text := ("B"), icon := none, widget := ⟨11⟩, enabled := true,
               menu_item := none } ∧
      (OptionContainer.set_option_text overflowTabsState 1 ("BB")).1.menu =
        overflowTabsState.menu ∧
      OptionContainer.get_option_text
        (OptionContainer.set_option_text overflowTabsState 1 ("BB")).1 1 =
        .ok ("BB") ∧
      OptionContainer.get_option_icon overflowTabsState 1 = .ok none := by
  have hopt : overflowTabsState.options.get? 1 =
      some { text := ("B"), icon := none, widget := ⟨11⟩, enabled := true,
             menu_item := none } := by decide
  have hmain := option_accessors_shadow_native overflowTabsState 1
    { text := ("B"), icon := none, widget := ⟨11⟩, enabled := true,
      menu_item := none }
    true ("BB") none hopt
  exact ⟨hopt, hmain.2.1.2.2, (hmain.2.2.2.2.2.2 rfl).2.1,
    hmain.2.2.2.2.2.1⟩

/-- C8 (amended): `remove_option(index)` with a valid index (and the
positive `max_items` every Android device has) succeeds; it removes the
native menu entry of `options[index]` when the option has one, deletes the
list entry (later options shift left), and exactly when at least
`max_items` options remain it creates a fresh native menu entry for the
option now sitting at slot `max_items - 1` and stores the new reference in
that option — regardless of whether that option was previously menu-less
(when the removed option sat beyond the visible range, it was not, and the
slot's option ends up backed by a second, duplicate native entry; see
`remove_option_repopulates_populated_slot`). -/
theorem remove_option_spec (s : OCState) (index : Nat) (option : TogaOption)
    (h : s.options.get? index = some option) (hm : 0 < s.max_items) :
    (OptionContainer.remove_option s index).2 = none ∧
      (OptionContainer.remove_option s index).1.options.length =
        s.options.length - 1 ∧
      (OptionContainer.remove_option s index).1.options.map (fun o => o.widget) =
        (s.options.eraseIdx index).map (fun o => o.widget) ∧
      (OptionContainer.remove_option s index).1.menu.members =
        (if s.max_items ≤ s.options.length - 1 then
          (match option.menu_item with
            | some ref => s.menu.removeItem ref
            | none => s.menu).members ++ [s.menu.nextRef]
         else
          (match option.menu_item with
            | some ref => s.menu.removeItem ref
            | none => s.menu).members) ∧
      (s.max_items ≤ s.options.length - 1 →
        ((OptionContainer.remove_option s index).1.options.get?
            (s.max_items - 1)).map (fun o => o.menu_item.isSome) =
          some true) ∧
      (s.options.length - 1 < s.max_items →
        (OptionContainer.remove_option s index).1.options =
          s.options.eraseIdx index) := by
  have hlt : index < s.options.length := by
    by_contra hge
    rw [List.get?_eq_none.mpr (Nat.le_of_not_lt hge)] at h
    exact Option.noConfusion h
  have hlen2 : (s.options.eraseIdx index).length = s.options.length - 1 :=
    List.length_eraseIdx_of_lt hlt
  by_cases hcond : s.max_items ≤ s.options.length - 1
  · rcases hg2 : (s.options.eraseIdx index).get? (s.max_items - 1) with _ | o2
    · rw [List.get?_eq_none] at hg2
      omega
    · have hspec := populate_menu_item_spec
        { (match option.menu_item with
            | some ref => { s with menu := s.menu.removeItem ref }
            | none => s) with options := s.options.eraseIdx index }
        (s.max_items - 1) o2 ?hg
      case hg =>
        cases hmi : option.menu_item <;> exact hg2
      have hsame :
          OptionContainer.remove_option s index =
            OptionContainer.populate_menu_item
              { (match option.menu_item with
                  | some ref => { s with menu := s.menu.removeItem ref }
                  | none => s) with options := s.options.eraseIdx index }
              (s.max_items - 1) (s.max_items - 1) := by
        unfold OptionContainer.remove_option
        rw [h]
        cases hmi : option.menu_item <;>
          simp [hmi, hlen2, hcond]
      rw [hsame]
      obtain ⟨he, hopts, hmem, hmax, -, -, -⟩ := hspec
      cases hmi : option.menu_item <;>
        simp only [hmi] at hopts hmem he hmax ⊢ <;>
        refine ⟨he, ?_, ?_, ?_, ?_, ?_⟩
      · rw [hopts]
        simp [hlen2]
      · rw [hopts]
        exact map_set_invariant (fun o => o.widget) (s.options.eraseIdx index)
          (s.max_items - 1) o2 _ hg2 rfl
      · rw [hmem]
        simp [hcond, NativeMenu.removeItem]
      · intro _
        rw [hopts, List.get?_set_eq_of_lt]
        · rfl
        · rw [hlen2]
          omega
      · intro hc
        omega
      · rw [hopts]
        simp [hlen2]
      · rw [hopts]
        exact map_set_invariant (fun o => o.widget) (s.options.eraseIdx index)
          (s.max_items - 1) o2 _ hg2 rfl
      · rw [hmem]
        simp [hcond, NativeMenu.removeItem]
      · intro _
        rw [hopts, List.get?_set_eq_of_lt]
        · rfl
        · rw [hlen2]
          omega
      · intro hc
        omega
  · have hres :
        OptionContainer.remove_option s index =
          ({ (match option.menu_item with
              | some ref => { s with menu := s.menu.removeItem ref }
              | none => s) with options := s.options.eraseIdx index }, none) := by
      unfold OptionContainer.remove_option
      rw [h]
      cases hmi : option.menu_item <;>
        simp [hmi, hlen2, hcond, Nat.lt_of_not_le]
    rw [hres]
    cases hmi : option.menu_item <;>
      simp [hmi, hlen2, hcond]

/-- Witness for C8 at the spec's eviction example: `max_items = 3`, tabs
A, B, C, D (D menu-less); removing A deletes its native entry, shifts the
list to [B, C, D], and — since 3 options remain — re-populates slot 2, so
D gains a native menu entry. -/
theorem remove_option_spec_witness :
    (fourTabsState.options.get? 0 =
        some { text := ("A"), icon := none, widget := ⟨10⟩, enabled := true,
               menu_item := some 0 } ∧
      0 < fourTabsState.max_items) ∧
      ((OptionContainer.remove_option fourTabsState 0).2 = none ∧
        (OptionContainer.remove_option fourTabsState 0).1.options.map
            (fun o => (o.text, o.menu_item)) =
          [(("B"), some 1), (("C"), some 2), (("D"), some 3)] ∧
        (OptionContainer.remove_option fourTabsState 0).1.menu.members =
          [1, 2, 3]) := by
  have h0 : fourTabsState.options.get? 0 =
      some { text := ("A"), icon := none, widget := ⟨10⟩, enabled := true,
             menu_item := some 0 } := by decide
  have hm : 0 < fourTabsState.max_items := by decide
  have hmain := remove_option_spec fourTabsState 0
    { text := ("A"), icon := none, widget := ⟨10⟩, enabled := true,
      menu_item := some 0 } h0 hm
  exact ⟨⟨h0, hm⟩, hmain.1, by decide, hmain.2.2.2.1.trans (by decide)⟩
